import Mathlib

/-!
Verification development for the Photobook helper module
(`src/photobook/function.py`): the action-token subsystem
(`generate_token` / `validate_token`), safe redirect resolution
(`is_safe_url` / `redirect_back`), notification emission
(`push_follow_notification` and friends), and the anonymous `Guest`
identity with the `permission_required` / `admin_required` gates.

External collaborators that are not part of the repository source
(the itsdangerous `TimedJSONWebSignatureSerializer`, the ORM models in
`photobook/models.py`, the urllib `urlparse` / `urljoin` pair, and the
Flask `url_for` helper) are modelled from the specification; each such
definition carries a doc comment starting with `Modelled from the spec`.
All machine behaviour written here otherwise follows the Python source
line by line.
-/

namespace Photobook

/-- Modelled from the spec: the User Directory row (`photobook/models.py`
is not under `src/`).  Per the spec the directory supports lookup by id
and by email and mutation of the confirmation flag, the password hash and
the email field. -/
structure User where
  id : Nat
  email : String
  confirmed : Bool
  password : Option String
deriving DecidableEq, Repr

/-- Modelled from the spec: the persisted User Directory, a collection of
user rows consulted by `User.query.filter_by(email=...)` and updated by
`db.session.commit()`. -/
structure Db where
  users : List User
deriving DecidableEq, Repr

/-- Modelled from the spec: `findByEmail(email) -> User?`, the directory
lookup behind `User.query.filter_by(email=new_email).first()`. -/
def findByEmail (db : Db) (e : String) : Option User :=
  db.users.find? (fun u => u.email == e)

/-- Modelled from the spec: `db.session.commit()` persists the mutated
user row through the directory; the row with the matching id is replaced,
everything else is untouched. -/
def commit (db : Db) (u : User) : Db :=
  ⟨db.users.map (fun v => if v.id == u.id then u else v)⟩

/-- Modelled from the spec: `User.set_password` (in the absent
`photobook/models.py`) sets the password hash of the user from the given
value; modelled as storing the value itself. -/
def set_password (u : User) (pw : Option String) : User :=
  { u with password := pw }

namespace Operations

/-- `Operations.CONFIRM` from `function.py` line 59. -/
def CONFIRM : String := "confirm"

/-- `Operations.RESET_PASSWORD` from `function.py` line 60. -/
def RESET_PASSWORD : String := "reset-password"

/-- `Operations.CHANGE_EMAIL` from `function.py` line 61. -/
def CHANGE_EMAIL : String := "change-email"

end Operations

/-- The payload serialized into a token: the dict
`\x7b'id': user.id, 'operation': operation\x7d` updated with the keyword
arguments.  The only keyword argument `validate_token` ever reads is
`new_email`, so the extra payload is modelled as that optional field. -/
structure TokenData where
  id : Nat
  operation : String
  new_email : Option String
deriving DecidableEq, Repr

/-- Modelled from the spec: a token produced by the external signing
library.  A signed value records the signing key, the payload, the issue
time and the optional expiry time; `garbage` stands for any string that
is not a well-formed signed value. -/
inductive Token where
  | signed (key : String) (data : TokenData) (iat : Nat) (exp : Option Nat)
  | garbage
deriving DecidableEq, Repr

/-- `generate_token` from `function.py` lines 63-68.  The serializer is
modelled from the spec: `issue` signs the payload with the server key and,
when a ttl is supplied, embeds the expiry `issuedAt + ttl`; when the ttl
is omitted the token carries no expiry. -/
def generate_token (key : String) (user : User) (operation : String)
    (expire_in : Option Nat) (new_email : Option String) (now : Nat) : Token :=
  Token.signed key ⟨user.id, operation, new_email⟩ now (expire_in.map (fun d => now + d))

/-- Modelled from the spec: `s.loads(token)` of the external serializer.
It rejects values not signed with the server key (BadSignature) and, per
the spec round-trip property, rejects a token carrying expiry `e` once
`now >= e` (SignatureExpired); both surface to `validate_token` as the
same caught exception. -/
def loads (key : String) (now : Nat) (t : Token) : Option TokenData :=
  match t with
  | Token.garbage => none
  | Token.signed k d _ exp =>
    if k = key then
      match exp with
      | none => some d
      | some e => if now < e then some d else none
    else none

/-- The four observable effects of one `validate_token` call: the returned
boolean, the in-memory user object, the persisted directory, and how many
times `db.session.commit()` ran. -/
structure VOutcome where
  ok : Bool
  user : User
  db : Db
  commits : Nat
deriving DecidableEq, Repr

/-- `validate_token` from `function.py` lines 71-97, translated branch by
branch.  Every `return False` of the source leaves the user object and the
directory untouched and performs no commit; the three success branches
mutate one field and commit once. -/
def validate_token (key : String) (db : Db) (user : User) (token : Token)
    (operation : String) (new_password : Option String) (now : Nat) : VOutcome :=
  match loads key now token with
  | none => ⟨false, user, db, 0⟩
  | some data =>
    if operation ≠ data.operation ∨ user.id ≠ data.id then
      ⟨false, user, db, 0⟩
    else if operation = Operations.CONFIRM then
      let u := { user with confirmed := true }
      ⟨true, u, commit db u, 1⟩
    else if operation = Operations.RESET_PASSWORD then
      let u := set_password user new_password
      ⟨true, u, commit db u, 1⟩
    else if operation = Operations.CHANGE_EMAIL then
      match data.new_email with
      | none => ⟨false, user, db, 0⟩
      | some e =>
        if (findByEmail db e).isSome then ⟨false, user, db, 0⟩
        else
          let u := { user with email := e }
          ⟨true, u, commit db u, 1⟩
    else
      ⟨false, user, db, 0⟩

/-- The parsed components of a URL that `is_safe_url` inspects: the
scheme, the network location, and the remainder. -/
structure UrlParts where
  scheme : String
  netloc : String
  rest : String
deriving DecidableEq, Repr

/-- Modelled from the spec: the characters urllib allows inside a URL
scheme — letters, digits, plus, minus and dot. -/
def isSchemeChar (c : Char) : Bool :=
  c.isAlpha || c.isDigit || c == '+' || c == '-' || c == '.'

/-- Modelled from the spec: the tail of urllib `urlparse` once the scheme
has been split off — a remainder starting with `//` carries a network
location terminated by a slash, a question mark or a hash; anything else
has no network location. -/
def urlparse_rest (scheme : String) (r : String) : UrlParts :=
  if r.startsWith ("//") then
    let after := r.drop 2
    let netloc := after.takeWhile (fun c => c != '/' && c != '?' && c != '#')
    ⟨scheme, netloc, after.drop netloc.length⟩
  else
    ⟨scheme, "", r⟩

/-- Modelled from the spec: urllib `urlparse` is external.  A scheme is
recognised before a colon when it starts with a letter and consists of
scheme characters, also in `scheme:opaque` form such as a javascript: or
data: URI; the scheme is lowercased.  After the scheme, a `//` introduces
the network location; otherwise there is none. -/
def urlparse (s : String) : UrlParts :=
  let cand := s.takeWhile isSchemeChar
  let rest := s.drop cand.length
  if cand != "" && cand.front.isAlpha && rest.startsWith (":") then
    urlparse_rest (cand.toLower) (rest.drop 1)
  else
    urlparse_rest ("") s

/-- Modelled from the spec: the schemes urllib allows relative resolution
for; a candidate with any other scheme (javascript:, data:, mailto:, ...)
is left unchanged by `urljoin`. -/
def uses_relative (scheme : String) : Bool :=
  (["", "ftp", "http", "gopher", "nntp", "imap", "wais", "file", "https",
    "shttp", "mms", "prospero", "rtsp", "rtspu", "sftp", "svn", "svn+ssh",
    "ws", "wss"]).contains scheme

/-- Modelled from the spec: urllib `urljoin` is external; the spec asks
for the resolved absolute URL of a candidate against the host URL.  A
candidate whose scheme differs from the base scheme, or whose scheme does
not admit relative resolution (a javascript: or data: URI keeps its
scheme), stands alone; a candidate with its own network location keeps
it, inheriting the base scheme when it has none of its own; any other
candidate resolves inside the base origin. -/
def urljoin_parts (base : UrlParts) (target : String) : UrlParts :=
  let t := urlparse target
  let scheme := if t.scheme != "" then t.scheme else base.scheme
  if scheme != base.scheme || !(uses_relative scheme) then t
  else if t.netloc != "" then { t with scheme := scheme }
  else { base with rest := t.rest }

/-- `is_safe_url` from `function.py` lines 99-103: parse the host URL,
resolve the target against it, and accept exactly when the resolved URL
has an http or https scheme and the same network location as the host. -/
def is_safe_url (host_url : String) (target : String) : Bool :=
  let ref_url := urlparse host_url
  let test_url := urljoin_parts ref_url target
  (test_url.scheme == "http" || test_url.scheme == "https")
    && ref_url.netloc == test_url.netloc

/-- The outcome of `redirect_back`: a redirect to a concrete target, or a
redirect to the `url_for` of the default endpoint. -/
inductive Redirect where
  | toTarget (t : String)
  | toDefault (endpoint : String)
deriving DecidableEq, Repr

/-- The slice of the Flask request consulted by `redirect_back`: the host
URL, the optional `next` query parameter and the optional referrer. -/
structure Request where
  host_url : String
  next : Option String
  referrer : Option String
deriving DecidableEq, Repr

/-- The loop of `redirect_back` over its candidates: `if not target:
continue` skips an absent or empty candidate, an unsafe candidate is
skipped as well, and the first safe candidate wins. -/
def redirect_back_from (host_url : String) (cands : List (Option String))
    (dflt : String) : Redirect :=
  match cands with
  | [] => Redirect.toDefault dflt
  | none :: rest => redirect_back_from host_url rest dflt
  | some t :: rest =>
    if t = "" then redirect_back_from host_url rest dflt
    else if is_safe_url host_url t then Redirect.toTarget t
    else redirect_back_from host_url rest dflt

/-- `redirect_back` from `function.py` lines 106-112: iterate over the
`next` query parameter then the referrer, redirect to the first candidate
that is present, non-empty and safe, and fall back to the default
endpoint. -/
def redirect_back (req : Request) (dflt : String) : Redirect :=
  redirect_back_from req.host_url [req.next, req.referrer] dflt

/-- The ordered candidate list `request.args.get('next'), request.referrer`
of `redirect_back`. -/
def candidates (req : Request) : List (Option String) :=
  [req.next, req.referrer]

/-- The selection predicate of the claim, spelt from the spec words: a
candidate qualifies when it is present, non-empty, and its resolved
absolute URL has an http or https scheme and the same network location as
the host URL. -/
def qualifies (host_url : String) (c : Option String) : Bool :=
  match c with
  | none => false
  | some t =>
    let resolved := urljoin_parts (urlparse host_url) t
    (t != "") &&
      ((resolved.scheme == "http" || resolved.scheme == "https")
        && ((urlparse host_url).netloc == resolved.netloc))

/-- Modelled from the spec: a Notification Store row
`Notification(message, receiverId, isRead=false, createdAt)`; the ORM
default for a fresh row is unread. -/
structure Notification where
  message : String
  receiver_id : Nat
  is_read : Bool
deriving DecidableEq, Repr

/-- Modelled from the spec: Flask `url_for('user.index', username=...)`
is external; modelled as a canonical path string for the route. -/
def url_for_user_index (username : String) : String :=
  ("/user/") ++ username

/-- Modelled from the spec: Flask `url_for('main.show_photo', ...)` is
external; modelled as a canonical path string, with the page query
parameter appended when supplied. -/
def url_for_show_photo (photo_id : Nat) (page : Option Nat) : String :=
  ("/photo/") ++ toString photo_id ++
    (match page with
     | none => ""
     | some p => ("?page=") ++ toString p)

/-- `push_follow_notification` from `function.py` lines 124-129: build the
message, append one row for the receiver, commit immediately. -/
def push_follow_notification (follower_username : String) (receiver_id : Nat)
    (store : List Notification) : List Notification :=
  let message := ("User <a href=\"") ++ url_for_user_index follower_username
    ++ ("\">") ++ follower_username ++ ("</a> followed you.")
  store ++ [⟨message, receiver_id, false⟩]

/-- `push_comment_notification` from `function.py` lines 132-137. -/
def push_comment_notification (photo_id : Nat) (receiver_id : Nat) (page : Nat)
    (store : List Notification) : List Notification :=
  let message := ("<a href=\"") ++ url_for_show_photo photo_id (some page)
    ++ ("#comments\">This photo</a> has new comment/reply.")
  store ++ [⟨message, receiver_id, false⟩]

/-- `push_collect_notification` from `function.py` lines 140-147. -/
def push_collect_notification (collector_username : String) (photo_id : Nat)
    (receiver_id : Nat) (store : List Notification) : List Notification :=
  let message := ("User <a href=\"") ++ url_for_user_index collector_username
    ++ ("\">") ++ collector_username ++ ("</a> collected your <a href=\"")
    ++ url_for_show_photo photo_id none ++ ("\">photo</a>")
  store ++ [⟨message, receiver_id, false⟩]

/-- One notification-emitting event, tagged with which push function it
triggers. -/
inductive NotifyEvent where
  | follow (follower_username : String) (receiver_id : Nat)
  | comment (photo_id : Nat) (receiver_id : Nat) (page : Nat)
  | collect (collector_username : String) (photo_id : Nat) (receiver_id : Nat)
deriving DecidableEq, Repr

/-- Dispatch one event to the push function it triggers. -/
def pushEvent (store : List Notification) (e : NotifyEvent) : List Notification :=
  match e with
  | NotifyEvent.follow f r => push_follow_notification f r store
  | NotifyEvent.comment p r pg => push_comment_notification p r pg store
  | NotifyEvent.collect c p r => push_collect_notification c p r store

/-- Fire a sequence of notification-emitting events against the store, in
call order. -/
def processEvents (store : List Notification) (es : List NotifyEvent) :
    List Notification :=
  es.foldl pushEvent store

/-- The single row one event appends, spelt out from the three message
formats of the source. -/
def recordOf (e : NotifyEvent) : Notification :=
  match e with
  | NotifyEvent.follow f r =>
    ⟨("User <a href=\"") ++ url_for_user_index f ++ ("\">") ++ f
      ++ ("</a> followed you."), r, false⟩
  | NotifyEvent.comment p r pg =>
    ⟨("<a href=\"") ++ url_for_show_photo p (some pg)
      ++ ("#comments\">This photo</a> has new comment/reply."), r, false⟩
  | NotifyEvent.collect c p r =>
    ⟨("User <a href=\"") ++ url_for_user_index c ++ ("\">") ++ c
      ++ ("</a> collected your <a href=\"") ++ url_for_show_photo p none
      ++ ("\">photo</a>"), r, false⟩

/-- The interface of the current session identity consulted by the
decorators: the `can` capability check and the `is_admin` flag. -/
structure SessionUser where
  can : String → Bool
  is_admin : Bool

/-- `Guest` from `function.py` lines 46-53: the anonymous identity whose
`can` returns `False` for every permission name and whose `is_admin`
property is `False`. -/
def Guest : SessionUser :=
  ⟨fun _ => false, false⟩

/-- The observable outcome of a decorated view gate: proceed into the
view, or abort with 403. -/
inductive GateResult where
  | proceed
  | abort403
deriving DecidableEq, Repr

/-- `permission_required` from `function.py` lines 165-173: abort with 403
unless `current_user.can(permission_name)`. -/
def permission_required (permission_name : String) (cu : SessionUser) : GateResult :=
  if cu.can permission_name then GateResult.proceed else GateResult.abort403

/-- `admin_required` from `function.py` lines 176-177. -/
def admin_required (cu : SessionUser) : GateResult :=
  permission_required ("ADMINISTER") cu

/-! ## Helper lemmas -/

/-- Each push function appends exactly the row `recordOf` describes. -/
theorem pushEvent_eq_append (store : List Notification) (e : NotifyEvent) :
    pushEvent store e = store ++ [recordOf e] := by
  cases e <;> rfl

/-- Firing a sequence of events appends their rows in call order. -/
theorem processEvents_eq_append (es : List NotifyEvent) :
    ∀ store : List Notification, processEvents store es = store ++ es.map recordOf := by
  induction es with
  | nil => intro store; simp [processEvents]
  | cons e rest ih =>
    intro store
    have h1 : processEvents store (e :: rest) = processEvents (pushEvent store e) rest := rfl
    rw [h1, ih, pushEvent_eq_append]
    simp

/-- A successfully decoded token is the signed value for the server key
carrying exactly the decoded payload. -/
theorem loads_some_shape (key : String) (now : Nat) (t : Token) (d : TokenData)
    (h : loads key now t = some d) :
    ∃ iat exp, t = Token.signed key d iat exp := by
  cases t with
  | garbage => simp [loads] at h
  | signed k d0 iat exp =>
    unfold loads at h
    by_cases hk : k = key
    · subst hk
      refine ⟨iat, exp, ?_⟩
      cases exp with
      | none => simp at h; simp [h]
      | some e =>
        simp at h
        rcases h with ⟨-, h⟩
        simp [h]
    · simp [hk] at h

/-- A token with no expiry, or whose expiry lies in the future, decodes to
its payload. -/
theorem loads_signed_live (key : String) (now iat : Nat) (d : TokenData)
    (exp : Option Nat) (hlive : ∀ x, exp = some x → now < x) :
    loads key now (Token.signed key d iat exp) = some d := by
  cases exp with
  | none => simp [loads]
  | some e => simp [loads, hlive e rfl]

/-- A token whose expiry has passed no longer decodes. -/
theorem loads_signed_expired (key : String) (now iat e : Nat) (d : TokenData)
    (hexp : e ≤ now) :
    loads key now (Token.signed key d iat (some e)) = none := by
  have h : ¬ now < e := Nat.not_lt.mpr hexp
  simp [loads, h]

/-- When decoding fails, `validate_token` returns `False` and touches
nothing. -/
theorem validate_loads_none (key : String) (db : Db) (u : User) (t : Token)
    (op : String) (pw : Option String) (now : Nat)
    (h : loads key now t = none) :
    validate_token key db u t op pw now = ⟨false, u, db, 0⟩ := by
  unfold validate_token
  rw [h]

/-- Every run of `validate_token` is one of: the untouched failure frame,
or one of the three single-mutation commits. -/
theorem validate_token_cases (key : String) (db : Db) (u : User) (t : Token)
    (op : String) (pw : Option String) (now : Nat) :
    validate_token key db u t op pw now = ⟨false, u, db, 0⟩
    ∨ (op = Operations.CONFIRM ∧
        validate_token key db u t op pw now
          = ⟨true, { u with confirmed := true }, commit db { u with confirmed := true }, 1⟩)
    ∨ (op = Operations.RESET_PASSWORD ∧
        validate_token key db u t op pw now
          = ⟨true, set_password u pw, commit db (set_password u pw), 1⟩)
    ∨ (∃ e, op = Operations.CHANGE_EMAIL ∧ findByEmail db e = none ∧
        validate_token key db u t op pw now
          = ⟨true, { u with email := e }, commit db { u with email := e }, 1⟩) := by
  unfold validate_token
  cases hl : loads key now t with
  | none => exact Or.inl rfl
  | some data =>
    dsimp only
    by_cases h1 : op ≠ data.operation ∨ u.id ≠ data.id
    · rw [if_pos h1]; exact Or.inl rfl
    · rw [if_neg h1]
      by_cases h2 : op = Operations.CONFIRM
      · rw [if_pos h2]; exact Or.inr (Or.inl ⟨h2, rfl⟩)
      · rw [if_neg h2]
        by_cases h3 : op = Operations.RESET_PASSWORD
        · rw [if_pos h3]; exact Or.inr (Or.inr (Or.inl ⟨h3, rfl⟩))
        · rw [if_neg h3]
          by_cases h4 : op = Operations.CHANGE_EMAIL
          · rw [if_pos h4]
            cases hne : data.new_email with
            | none => exact Or.inl rfl
            | some e =>
              dsimp only
              by_cases h5 : (findByEmail db e).isSome = true
              · rw [if_pos h5]; exact Or.inl rfl
              · rw [if_neg h5]
                refine Or.inr (Or.inr (Or.inr ⟨e, h4, ?_, rfl⟩))
                cases hfe : findByEmail db e with
                | none => rfl
                | some v => rw [hfe] at h5; simp at h5
          · rw [if_neg h4]; exact Or.inl rfl

/-- The selection predicate coincides with non-emptiness plus the safety
check of the source. -/
theorem qualifies_eq (host_url : String) (t : String) :
    qualifies host_url (some t) = ((t != "") && is_safe_url host_url t) := rfl

/-- The candidate loop of `redirect_back` picks exactly the first
qualifying candidate, and the default when none qualifies. -/
theorem redirect_back_from_eq_find (h dflt : String) :
    ∀ cs : List (Option String),
      redirect_back_from h cs dflt =
        match cs.find? (qualifies h) with
        | some (some t) => Redirect.toTarget t
        | _ => Redirect.toDefault dflt := by
  intro cs
  induction cs with
  | nil => rfl
  | cons c rest ih =>
    cases c with
    | none =>
      have hq : qualifies h none = false := rfl
      simp only [redirect_back_from, List.find?, hq]
      exact ih
    | some t =>
      by_cases h1 : t = ""
      · subst h1
        have hq : qualifies h (some "") = false := by
          rw [qualifies_eq]
          simp
        simp only [redirect_back_from, List.find?, hq, if_pos rfl]
        exact ih
      · by_cases h2 : is_safe_url h t = true
        · have hq : qualifies h (some t) = true := by
            rw [qualifies_eq, h2]
            simp [h1]
          simp only [redirect_back_from, List.find?, hq, if_neg h1, if_pos h2]
        · have hq : qualifies h (some t) = false := by
            rw [qualifies_eq]
            simp [h2]
          simp only [redirect_back_from, List.find?, hq, if_neg h1,
            if_neg h2]
          exact ih

/-! ## Claim theorems -/

/-- Claim C1, counterexample to the statement as written: for the user
with id 1 and a change-email token issued at time 0 with ttl 100 but
carrying no extra payload, validation at time 50 — strictly before
`issuedAt + ttl` — returns the failure, not success. -/
theorem claim1_counterexample :
    (validate_token ("k") ⟨[⟨1, ("a@b"), false, none⟩]⟩ ⟨1, ("a@b"), false, none⟩
      (generate_token ("k") ⟨1, ("a@b"), false, none⟩ Operations.CHANGE_EMAIL (some 100) none 0)
      Operations.CHANGE_EMAIL none 50).ok = false
    ∧ 50 < 0 + 100 := by
  decide

/-- Claim C1 (amended): for a token issued with ttl `d` at time `iat`,
validation fails once `now ≥ iat + d`, for every user, operation and
payload; and whenever the dispatch preconditions of the operation hold
(a confirm or reset-password token, or a change-email token carrying a
new email owned by no directory user), validation succeeds exactly while
`now < iat + d`. -/
theorem claim1_roundtrip_expiry (key : String) (db : Db) (u : User) (op : String)
    (d : Nat) (ext : Option String) (iat : Nat) (pw : Option String) (now : Nat) :
    (iat + d ≤ now →
      (validate_token key db u (generate_token key u op (some d) ext iat)
        op pw now).ok = false)
    ∧ ((op = Operations.CONFIRM ∨ op = Operations.RESET_PASSWORD
          ∨ (op = Operations.CHANGE_EMAIL ∧ ∃ e, ext = some e ∧ findByEmail db e = none)) →
        ((validate_token key db u (generate_token key u op (some d) ext iat)
            op pw now).ok = true
          ↔ now < iat + d)) := by
  have hgen : generate_token key u op (some d) ext iat
      = Token.signed key ⟨u.id, op, ext⟩ iat (some (iat + d)) := rfl
  constructor
  · intro hexp
    have hnone := loads_signed_expired key now iat (iat + d)
      (⟨u.id, op, ext⟩ : TokenData) hexp
    rw [hgen, validate_loads_none key db u _ op pw now hnone]
  · intro hpre
    constructor
    · intro hok
      by_contra hnlt
      have hexp : iat + d ≤ now := Nat.le_of_not_lt hnlt
      have hnone := loads_signed_expired key now iat (iat + d)
        (⟨u.id, op, ext⟩ : TokenData) hexp
      have hres := validate_loads_none key db u _ op pw now hnone
      rw [hgen, hres] at hok
      simp at hok
    · intro hlt
      have hsome := loads_signed_live key now iat (⟨u.id, op, ext⟩ : TokenData)
        (some (iat + d)) (fun x hx => by injection hx with h; exact h ▸ hlt)
      rw [hgen]
      unfold validate_token
      rw [hsome]
      dsimp only
      rw [if_neg (by simp)]
      rcases hpre with hc | hr | ⟨hce, e, hext, hfe⟩
      · subst hc
        rw [if_pos rfl]
      · subst hr
        rw [if_neg (by decide), if_pos rfl]
      · subst hce
        subst hext
        rw [if_neg (by decide), if_neg (by decide), if_pos rfl]
        dsimp only
        rw [hfe]
        rw [if_neg (by simp)]

/-- Claim C1, witness: a confirm token issued at time 0 with ttl 100 fails
at time 150 and succeeds at time 50. -/
theorem claim1_witness :
    ((validate_token ("k") ⟨[]⟩ ⟨1, ("a@b"), false, none⟩
      (generate_token ("k") ⟨1, ("a@b"), false, none⟩ Operations.CONFIRM (some 100) none 0)
      Operations.CONFIRM none 150).ok = false)
    ∧ ((validate_token ("k") ⟨[]⟩ ⟨1, ("a@b"), false, none⟩
      (generate_token ("k") ⟨1, ("a@b"), false, none⟩ Operations.CONFIRM (some 100) none 0)
      Operations.CONFIRM none 50).ok = true ↔ 50 < 0 + 100) :=
  ⟨(claim1_roundtrip_expiry ("k") ⟨[]⟩ ⟨1, ("a@b"), false, none⟩
      Operations.CONFIRM 100 none 0 none 150).1 (by decide),
   (claim1_roundtrip_expiry ("k") ⟨[]⟩ ⟨1, ("a@b"), false, none⟩
      Operations.CONFIRM 100 none 0 none 50).2 (Or.inl rfl)⟩

/-- Claim C2: validation is all-or-nothing.  Whenever `validate_token`
returns the failure, the user object, the directory and the session are
exactly as before and no commit ran; whenever it returns success, exactly
one commit ran, the persisted directory is the input directory with the
returned user written through, and the returned user differs from the
input user in exactly the one field selected by the operation. -/
theorem claim2_all_or_nothing (key : String) (db : Db) (u : User) (t : Token)
    (op : String) (pw : Option String) (now : Nat) :
    ((validate_token key db u t op pw now).ok = false →
      validate_token key db u t op pw now = ⟨false, u, db, 0⟩)
    ∧ ((validate_token key db u t op pw now).ok = true →
      (validate_token key db u t op pw now).commits = 1
      ∧ (validate_token key db u t op pw now).db
          = commit db ((validate_token key db u t op pw now).user)
      ∧ ((op = Operations.CONFIRM
            ∧ (validate_token key db u t op pw now).user = { u with confirmed := true })
        ∨ (op = Operations.RESET_PASSWORD
            ∧ (validate_token key db u t op pw now).user = set_password u pw)
        ∨ (∃ e, op = Operations.CHANGE_EMAIL ∧ findByEmail db e = none
            ∧ (validate_token key db u t op pw now).user = { u with email := e }))) := by
  rcases validate_token_cases key db u t op pw now with
    hfail | ⟨hop, heq⟩ | ⟨hop, heq⟩ | ⟨e, hop, hfe, heq⟩
  · refine ⟨fun _ => hfail, fun hok => ?_⟩
    rw [hfail] at hok
    simp at hok
  · refine ⟨fun hok => ?_, fun _ => ?_⟩
    · rw [heq] at hok; simp at hok
    · rw [heq]; exact ⟨rfl, rfl, Or.inl ⟨hop, rfl⟩⟩
  · refine ⟨fun hok => ?_, fun _ => ?_⟩
    · rw [heq] at hok; simp at hok
    · rw [heq]; exact ⟨rfl, rfl, Or.inr (Or.inl ⟨hop, rfl⟩)⟩
  · refine ⟨fun hok => ?_, fun _ => ?_⟩
    · rw [heq] at hok; simp at hok
    · rw [heq]; exact ⟨rfl, rfl, Or.inr (Or.inr ⟨e, hop, hfe, rfl⟩)⟩

/-- Claim C2, witness: a garbage token leaves everything untouched, and a
valid confirm token commits exactly once. -/
theorem claim2_witness :
    (validate_token ("k") ⟨[⟨1, ("a@b"), false, none⟩]⟩ ⟨1, ("a@b"), false, none⟩
        Token.garbage Operations.CONFIRM none 0
      = ⟨false, ⟨1, ("a@b"), false, none⟩, ⟨[⟨1, ("a@b"), false, none⟩]⟩, 0⟩)
    ∧ (validate_token ("k") ⟨[⟨1, ("a@b"), false, none⟩]⟩ ⟨1, ("a@b"), false, none⟩
        (Token.signed ("k") ⟨1, Operations.CONFIRM, none⟩ 0 none)
        Operations.CONFIRM none 0).commits = 1 :=
  ⟨(claim2_all_or_nothing ("k") ⟨[⟨1, ("a@b"), false, none⟩]⟩ ⟨1, ("a@b"), false, none⟩
      Token.garbage Operations.CONFIRM none 0).1 (by decide),
   ((claim2_all_or_nothing ("k") ⟨[⟨1, ("a@b"), false, none⟩]⟩ ⟨1, ("a@b"), false, none⟩
      (Token.signed ("k") ⟨1, Operations.CONFIRM, none⟩ 0 none)
      Operations.CONFIRM none 0).2 (by decide)).1⟩

/-- Claim C3, counterexample to the statement as written: a change-email
token proposing the subject's own current email is rejected even though
that email belongs to no *different* existing user. -/
theorem claim3_counterexample :
    (validate_token ("k") ⟨[⟨1, ("a@b"), false, none⟩]⟩ ⟨1, ("a@b"), false, none⟩
      (Token.signed ("k") ⟨1, Operations.CHANGE_EMAIL, some ("a@b")⟩ 0 none)
      Operations.CHANGE_EMAIL none 0).ok = false
    ∧ (⟨[⟨1, ("a@b"), false, none⟩]⟩ : Db).users.all
        (fun v => (v.email != ("a@b")) || (v.id == 1)) = true := by
  decide

/-- Claim C3 (amended): for a valid unexpired change-email token carrying
`newEmail = e` for the subject user, validation fails — touching nothing —
exactly when some existing directory user (the subject included) owns `e`,
and succeeds when no user owns `e`, setting the subject's email to `e` and
persisting exactly that mutation. -/
theorem claim3_change_email (key : String) (db : Db) (u : User) (e : String)
    (iat : Nat) (exp : Option Nat) (pw : Option String) (now : Nat)
    (hlive : ∀ x, exp = some x → now < x) :
    ((validate_token key db u
        (Token.signed key ⟨u.id, Operations.CHANGE_EMAIL, some e⟩ iat exp)
        Operations.CHANGE_EMAIL pw now).ok = true ↔ findByEmail db e = none)
    ∧ (findByEmail db e = none →
        validate_token key db u
          (Token.signed key ⟨u.id, Operations.CHANGE_EMAIL, some e⟩ iat exp)
          Operations.CHANGE_EMAIL pw now
          = ⟨true, { u with email := e }, commit db { u with email := e }, 1⟩)
    ∧ ((findByEmail db e).isSome = true →
        validate_token key db u
          (Token.signed key ⟨u.id, Operations.CHANGE_EMAIL, some e⟩ iat exp)
          Operations.CHANGE_EMAIL pw now = ⟨false, u, db, 0⟩) := by
  have hsome := loads_signed_live key now iat
    (⟨u.id, Operations.CHANGE_EMAIL, some e⟩ : TokenData) exp hlive
  unfold validate_token
  rw [hsome]
  dsimp only
  rw [if_neg (by simp), if_neg (by decide), if_neg (by decide), if_pos rfl]
  cases hfe : findByEmail db e with
  | none =>
    rw [if_neg (by simp)]
    exact ⟨by simp, fun _ => rfl, fun h => by simp at h⟩
  | some v =>
    rw [if_pos (by simp)]
    exact ⟨by simp, fun h => by simp at h, fun _ => rfl⟩

/-- Claim C3, witness: changing the email of user 1 to an unused address
succeeds and persists exactly that mutation. -/
theorem claim3_witness :
    validate_token ("k") ⟨[⟨1, ("a@b"), false, none⟩]⟩ ⟨1, ("a@b"), false, none⟩
      (Token.signed ("k") ⟨1, Operations.CHANGE_EMAIL, some ("c@d")⟩ 0 none)
      Operations.CHANGE_EMAIL none 0
      = ⟨true, ⟨1, ("c@d"), false, none⟩, ⟨[⟨1, ("c@d"), false, none⟩]⟩, 1⟩ := by
  have h := (claim3_change_email ("k") ⟨[⟨1, ("a@b"), false, none⟩]⟩
    ⟨1, ("a@b"), false, none⟩ ("c@d") 0 none none 0 (fun x hx => nomatch hx)).2.1
    (by decide)
  rw [h]
  decide

/-- Claim C4 (the code contradicts it): a valid reset-password token
validated with no new password value is accepted — the password is set
from the absent value and the mutation is committed — instead of failing
with a missing-required-field validation failure and no mutation. -/
theorem claim4_reset_password_missing_value :
    validate_token ("k") ⟨[⟨1, ("a@b"), true, some ("old")⟩]⟩
      ⟨1, ("a@b"), true, some ("old")⟩
      (Token.signed ("k") ⟨1, Operations.RESET_PASSWORD, none⟩ 0 none)
      Operations.RESET_PASSWORD none 0
      = ⟨true, ⟨1, ("a@b"), true, none⟩, ⟨[⟨1, ("a@b"), true, none⟩]⟩, 1⟩ := by
  decide

/-- Claim C5: a token issued with the ttl omitted has no expiry — it
decodes at every validation time, and the whole outcome of
`validate_token` on it is independent of the validation time, so it never
fails because of elapsed time. -/
theorem claim5_no_ttl_no_expiry (key : String) (db : Db) (u : User) (op : String)
    (ext : Option String) (iat : Nat) (pw : Option String) (now1 now2 : Nat) :
    loads key now1 (generate_token key u op none ext iat) = some ⟨u.id, op, ext⟩
    ∧ validate_token key db u (generate_token key u op none ext iat) op pw now1
      = validate_token key db u (generate_token key u op none ext iat) op pw now2 := by
  have h1 := loads_signed_live key now1 iat (⟨u.id, op, ext⟩ : TokenData) none
    (fun x hx => nomatch hx)
  have h2 := loads_signed_live key now2 iat (⟨u.id, op, ext⟩ : TokenData) none
    (fun x hx => nomatch hx)
  refine ⟨h1, ?_⟩
  unfold validate_token
  rw [show generate_token key u op none ext iat
      = Token.signed key ⟨u.id, op, ext⟩ iat none from rfl]
  rw [h1, h2]

/-- Claim C6: fail-closed on pair mismatch — a token minted for the pair
`(uid, op0)`, presented with a different expected operation or a user
whose id differs from `uid`, is always rejected, regardless of expiry, and
nothing is mutated or committed. -/
theorem claim6_mismatch_fail_closed (key : String) (db : Db) (u : User)
    (uid : Nat) (op0 : String) (ext : Option String) (iat : Nat) (exp : Option Nat)
    (op : String) (pw : Option String) (now : Nat)
    (hmis : op ≠ op0 ∨ u.id ≠ uid) :
    validate_token key db u (Token.signed key ⟨uid, op0, ext⟩ iat exp) op pw now
      = ⟨false, u, db, 0⟩ := by
  cases hl : loads key now (Token.signed key ⟨uid, op0, ext⟩ iat exp) with
  | none => exact validate_loads_none key db u _ op pw now hl
  | some data =>
    rcases loads_some_shape key now _ data hl with ⟨iat2, exp2, hteq⟩
    have hdata : data = ⟨uid, op0, ext⟩ := by
      injection hteq with hk hd hi he
      exact hd.symm
    subst hdata
    unfold validate_token
    rw [hl]
    dsimp only
    rw [if_pos hmis]

/-- Claim C6, witness: a token minted for confirm, validated against
reset-password, is rejected and nothing changes. -/
theorem claim6_witness :
    validate_token ("k") ⟨[⟨1, ("a@b"), false, none⟩]⟩ ⟨1, ("a@b"), false, none⟩
      (Token.signed ("k") ⟨1, Operations.CONFIRM, none⟩ 0 none)
      Operations.RESET_PASSWORD none 0
      = ⟨false, ⟨1, ("a@b"), false, none⟩, ⟨[⟨1, ("a@b"), false, none⟩]⟩, 0⟩ :=
  claim6_mismatch_fail_closed ("k") ⟨[⟨1, ("a@b"), false, none⟩]⟩
    ⟨1, ("a@b"), false, none⟩ 1 Operations.CONFIRM none 0 none
    Operations.RESET_PASSWORD none 0 (Or.inl (by decide))

/-- Claim C7: `redirect_back` redirects to the first of the ordered
candidates (the `next` query parameter, then the referrer) that is
present, non-empty and whose resolved absolute URL has an http or https
scheme and the same network location as the host URL; when no candidate
qualifies it redirects to the fallback endpoint. -/
theorem claim7_redirect_first_safe (req : Request) (dflt : String) :
    redirect_back req dflt =
      match (candidates req).find? (qualifies req.host_url) with
      | some (some t) => Redirect.toTarget t
      | _ => Redirect.toDefault dflt :=
  redirect_back_from_eq_find req.host_url dflt (candidates req)

/-- Claim C9: each notification push appends exactly one row for its
receiver and commits immediately, so a sequence of `n` triggering events
appends exactly `n` rows to the store, in call order, each initially
unread. -/
theorem claim9_notification_emission (store : List Notification)
    (es : List NotifyEvent) :
    processEvents store es = store ++ es.map recordOf
    ∧ (processEvents store es).length = store.length + es.length
    ∧ ∀ e : NotifyEvent, (recordOf e).is_read = false := by
  refine ⟨processEvents_eq_append es store, ?_, ?_⟩
  · rw [processEvents_eq_append es store]
    simp
  · intro e
    cases e <;> rfl

/-- Claim C10: the anonymous `Guest` identity denies every capability —
`Guest.can` returns `False` for every permission name and `Guest.is_admin`
is `False` — so an unauthenticated request aborts with 403 at every
`permission_required` gate and at the `admin_required` gate. -/
theorem claim10_guest_denies_everything (p : String) :
    Guest.can p = false ∧ Guest.is_admin = false
    ∧ permission_required p Guest = GateResult.abort403
    ∧ admin_required Guest = GateResult.abort403 :=
  ⟨rfl, rfl, rfl, rfl⟩

end Photobook
